import Mathlib

/-
Shallow embedding of the combination state-machine and admission-control
core of the data-flow repository:

  scripts/batch/register_combinations.py   (registrar, sweeper, dispatcher)
  scripts/lambda/check_capacity/lambda_function.py
  scripts/lambda/release_capacity/lambda_function.py
  scripts/lambda/trigger_next/lambda_function.py
  scripts/processor_manager.py             (per-combination orchestrator)

Timestamps are modelled as integers (seconds); DynamoDB items are modelled
as records whose optional attributes are Option-valued.  Conditional writes
are modelled by explicit snapshots of the stored item at the moment each
store operation executes, so races between the read and the conditional
write are expressible.
-/

namespace DataFlow

/-- A candidate combination from the discovery batch: the three identity
fields of `combinations.json`.  `validate_combination` in the source also
coerces non-string values to strings; here the fields are strings by
construction, so validation reduces to the non-emptiness checks. -/
structure Combo where
  P_EMPRESA : String
  P_CONTR : String
  P_VERSION : String
deriving DecidableEq, Repr

/-- `combo_id = f"{P_EMPRESA}_{P_CONTR}_{P_VERSION}"` as built throughout
`register_combinations.py`. -/
def comboId (c : Combo) : String :=
  c.P_EMPRESA ++ "_" ++ c.P_CONTR ++ "_" ++ c.P_VERSION

/-- `validate_combination`: every required field present and non-empty.
Field presence and the string coercion are captured by the `Combo`
structure itself. -/
def validate_combination (c : Combo) : Bool :=
  !(c.P_EMPRESA == "") && !(c.P_CONTR == "") && !(c.P_VERSION == "")

/-- A stored combination record (one DynamoDB item of the state table).
`status = ""` models an absent or empty status attribute: the source code
treats both identically in every branch it takes (`item.get("status")` and
falsy tests).  `started_at : Option (Option Int)`: `none` = attribute
absent, `some none` = present but not parseable as a timestamp,
`some (some t)` = parses to time `t`.  `error : Option (Option String)`:
`some none` models the attribute set to NULL (the `:null` value used by the
failed-to-pending reset). -/
structure CombRecord where
  P_EMPRESA : String
  P_CONTR : String
  P_VERSION : String
  status : String
  registered_at : Option Int
  started_at : Option (Option Int)
  reset_at : Option Int
  reset_reason : Option String
  last_updated : Option Int
  retries : Option Nat
  error : Option (Option String)
  execution_arn : Option String
deriving DecidableEq, Repr

/-- The state table: combination id to stored record. -/
abbrev Store := String → Option CombRecord

/-- Outcome classification returned by `register_combination_atomic`. -/
inductive RegOutcome
  | registered
  | reset
  | skipped
  | error
deriving DecidableEq, Repr

/-- The fresh item written by the `put_item` branch of
`register_combination_atomic`: identity fields, `status=pending`,
`registered_at=now`, `retries=0`, and no other attributes. -/
def newPendingRecord (c : Combo) (now : Int) : CombRecord where
  P_EMPRESA := c.P_EMPRESA
  P_CONTR := c.P_CONTR
  P_VERSION := c.P_VERSION
  status := "pending"
  registered_at := some now
  started_at := none
  reset_at := none
  reset_reason := none
  last_updated := none
  retries := some 0
  error := none
  execution_arn := none

/-- The failed-to-pending reset of `register_combination_atomic`:
`SET status=pending, reset_at=now, retries=if_not_exists(retries,0)+1,
error=NULL`. -/
def resetFromFailed (item : CombRecord) (now : Int) : CombRecord :=
  { item with
    status := "pending"
    reset_at := some now
    retries := some (item.retries.getD 0 + 1)
    error := some none }

/-- The force reset applied by `register_combination_atomic` to a record
whose status is outside `{pending, processing, completed}` (and is not
`failed`): `SET status=pending, reset_at=now,
retries=if_not_exists(retries,0)+1`. -/
def forceReset (item : CombRecord) (now : Int) : CombRecord :=
  { item with
    status := "pending"
    reset_at := some now
    retries := some (item.retries.getD 0 + 1) }

/-- The branch of `register_combination_atomic` taken when the initial
`get_item` found an existing record.  Returns the outcome and the record
written at the key (`none` = no write). -/
def register_existing (item : CombRecord) (now : Int) :
    RegOutcome × Option CombRecord :=
  if item.status = "failed" then
    (.reset, some (resetFromFailed item now))
  else if item.status ∉ (["pending", "processing", "completed"] : List String) then
    (.reset, some (forceReset item now))
  else
    (.skipped, none)

/-- `register_combination_atomic`, with the three store snapshots made
explicit: `s1` is what the initial `get_item` returned, `s2` is the item
present at the key when the conditional `put_item` executes (so the
condition `attribute_not_exists(id)` fails exactly when `s2` is `some`),
and `s3` is what the post-failure re-read returns.  Returns the outcome
classification together with the record the call writes at the key
(`none` = no write). -/
def register_combination_atomic (s1 s2 s3 : Option CombRecord) (c : Combo)
    (now : Int) : RegOutcome × Option CombRecord :=
  match s1 with
  | some item => register_existing item now
  | none =>
    match s2 with
    | none => (.registered, some (newPendingRecord c now))
    | some _ =>
      match s3 with
      | some _ => (.skipped, none)
      | none => (.error, none)

end DataFlow

namespace DataFlow

/-- `register_combination_atomic` run with no concurrent interference: all
three snapshots are the record currently in the store.  Returns the outcome
and the updated store. -/
def registerSeq (st : Store) (c : Combo) (now : Int) : RegOutcome × Store :=
  let k := comboId c
  let r := register_combination_atomic (st k) (st k) (st k) c now
  match r.2 with
  | some rec => (r.1, fun k' => if k' = k then some rec else st k')
  | none => (r.1, st)

/-- One item of the registration pass (`process_combination` inside
`register_combinations`): validation first, then the atomic registration;
a validation failure is reported as an error for that item only. -/
def process_one (st : Store) (c : Combo) (now : Int) : RegOutcome × Store :=
  if validate_combination c then registerSeq st c now
  else (.error, st)

/-- The registration pass over a batch, in the no-interference sequential
semantics: each candidate is validated and registered, outcomes are
collected in order. -/
def register_pass (st : Store) (cs : List Combo) (now : Int) :
    List RegOutcome × Store :=
  match cs with
  | [] => ([], st)
  | c :: rest =>
    let r := process_one st c now
    let rs := register_pass r.2 rest now
    (r.1 :: rs.1, rs.2)

/-- Count of items with a given outcome, as accumulated in the stats
dictionary of `register_combinations`. -/
def countOutcome (os : List RegOutcome) (o : RegOutcome) : Nat :=
  os.countP (fun x => x = o)

/-! ### Consistency sweeper (`clean_inconsistent_data`) -/

/-- `CLEANUP_HOURS_THRESHOLD = 8`, expressed in seconds: the staleness
threshold `timedelta(hours=8)` of the sweeper. -/
def cleanupThresholdSeconds : Int := 8 * 3600

/-- Step 1 of the sweeper classification: the first required field that is
missing or empty, with the reason message used by the source. -/
def sweeperMissingField (r : CombRecord) : Option String :=
  if r.P_EMPRESA = "" then some "Falta campo P_EMPRESA"
  else if r.P_CONTR = "" then some "Falta campo P_CONTR"
  else if r.P_VERSION = "" then some "Falta campo P_VERSION"
  else if r.status = "" then some "Falta campo status"
  else none

/-- The per-item classification of `clean_inconsistent_data`: `some reason`
when the record is judged inconsistent, in the order the source applies the
checks (missing fields, then stuck intermediate states, then unknown
status).  `now` is the current time; the threshold time of the source is
`now - cleanupThresholdSeconds`. -/
def clean_classify (r : CombRecord) (now : Int) : Option String :=
  match sweeperMissingField r with
  | some reason => some reason
  | none =>
    let step2 : Option String :=
      if r.status ∈ (["preprocessing", "processing"] : List String) then
        match r.started_at with
        | some (some t) =>
          if t < now - cleanupThresholdSeconds then
            some ("Estado " ++ r.status ++ " por más de 8h")
          else none
        | some none => some "Timestamp started_at inválido"
        | none => some ("Estado " ++ r.status ++ " sin timestamp")
      else none
    match step2 with
    | some reason => some reason
    | none =>
      if r.status ∉ (["pending", "preprocessing", "processing", "completed",
          "failed"] : List String) then
        some ("Estado desconocido: " ++ r.status)
      else none

/-- The reset written by the sweeper for an inconsistent in-progress
record: `SET status=pending, reset_at=now, reset_reason=reason,
retries=if_not_exists(retries,0)+1`. -/
def sweepResetRecord (r : CombRecord) (reason : String) (now : Int) :
    CombRecord :=
  { r with
    status := "pending"
    reset_at := some now
    reset_reason := some reason
    retries := some (r.retries.getD 0 + 1) }

/-- The remediation of `clean_inconsistent_data` for a record already
classified inconsistent: records whose status is `preprocessing` or
`processing` are reset in place, every other inconsistent record is deleted
(`none`). -/
def sweep_remediate (r : CombRecord) (reason : String) (now : Int) :
    Option CombRecord :=
  if r.status ∈ (["preprocessing", "processing"] : List String) then
    some (sweepResetRecord r reason now)
  else none

/-- What the sweep does to a single scanned record: classify, then either
leave it untouched, reset it, or delete it. -/
def clean_step (r : CombRecord) (now : Int) : Option CombRecord :=
  match clean_classify r now with
  | some reason => sweep_remediate r reason now
  | none => some r

/-! ### Capacity gate (`check_capacity` / `release_capacity` lambdas) -/

/-- The reply of the `check_capacity` handler. -/
structure CapacityResult where
  hasCapacity : Bool
  activeExecutions : Nat
  maxExecutions : Nat
deriving DecidableEq, Repr

/-- The `check_capacity` handler.  The counter is `none` when the
`capacity_control` item is absent; in that case the handler first writes an
item with `active_executions = 0`.  If the current count is below
`maxC = MAX_CONCURRENT_EXECUTIONS` it increments and reports the
post-increment count, else it reports the current count without capacity.
Returns the reply together with the resulting counter value. -/
def check_capacity (maxC : Nat) (counter : Option Nat) :
    CapacityResult × Nat :=
  let current := counter.getD 0
  if current < maxC then
    (⟨true, current + 1, maxC⟩, current + 1)
  else
    (⟨false, current, maxC⟩, current)

/-- The counter decrement of the `release_capacity` handler:
`SET active_executions = active_executions - 1` guarded by
`active_executions > 0`.  When the item is absent or the guard fails, the
conditional update writes nothing. -/
def release_capacity_counter : Option Nat → Option Nat
  | none => none
  | some a => if 0 < a then some (a - 1) else some a

/-- Whether the guarded decrement succeeds (no
`ConditionalCheckFailedException`). -/
def release_counter_ok : Option Nat → Bool
  | none => false
  | some a => 0 < a

/-- An invocation event of the `release_capacity` handler. -/
structure ReleaseEvent where
  combinationId : Option String
  status : Option String
  error : Option String
deriving DecidableEq, Repr

/-- The reply of the `release_capacity` handler. -/
structure ReleaseOutput where
  capacityReleased : Bool
  error : Option String
  combinationId : Option String
  status : String
deriving DecidableEq, Repr

/-- The status update the `release_capacity` handler applies to the
combination record: `SET status=:s, last_updated=:t` plus `error=:e` when
the event carries an error.  `update_item` upserts: when no record exists
at the key, an item holding exactly the written attributes is created. -/
def releaseStatusUpdate (r : Option CombRecord) (status : String)
    (err : Option String) (now : Int) : CombRecord :=
  match r with
  | some rec =>
    { rec with
      status := status
      last_updated := some now
      error := match err with
        | some e => some (some e)
        | none => rec.error }
  | none =>
    { P_EMPRESA := ""
      P_CONTR := ""
      P_VERSION := ""
      status := status
      registered_at := none
      started_at := none
      reset_at := none
      reset_reason := none
      last_updated := some now
      retries := none
      error := err.map some
      execution_arn := none }

/-- The combined effect of one `release_capacity` invocation. -/
structure ReleaseEffect where
  output : ReleaseOutput
  stateTable : Store
  counter : Option Nat

/-- The `release_capacity` handler: when the event carries a
`combinationId`, the state table record at that key gets the status update;
then the capacity counter is decremented under the `> 0` guard.  A guard
failure is caught and reported as `capacityReleased = false` with the
exception text recorded (modelled here by the exception name). -/
def release_handler (ev : ReleaseEvent) (table : Store)
    (counter : Option Nat) (now : Int) : ReleaseEffect :=
  let status := ev.status.getD "completed"
  let table' : Store :=
    match ev.combinationId with
    | none => table
    | some cid => fun k =>
        if k = cid then some (releaseStatusUpdate (table cid) status ev.error now)
        else table k
  if release_counter_ok counter then
    ⟨⟨true, none, ev.combinationId, status⟩, table',
      release_capacity_counter counter⟩
  else
    ⟨⟨false, some "ConditionalCheckFailedException", ev.combinationId, status⟩,
      table', release_capacity_counter counter⟩

/-! ### Capacity gate operation sequences -/

/-- One operation against the capacity counter. -/
inductive CapOp
  | acquire
  | release
deriving DecidableEq, Repr

/-- The counter after one operation. -/
def applyCapOp (maxC : Nat) (c : Option Nat) : CapOp → Option Nat
  | .acquire => some (check_capacity maxC c).2
  | .release => release_capacity_counter c

/-- The counter after a sequence of operations. -/
def runCapOps (maxC : Nat) (ops : List CapOp) (c : Option Nat) : Option Nat :=
  match ops with
  | [] => c
  | op :: rest => runCapOps maxC rest (applyCapOp maxC c op)

/-- How many `acquire` operations of the sequence were granted
(`hasCapacity = true`). -/
def countGranted (maxC : Nat) (ops : List CapOp) (c : Option Nat) : Nat :=
  match ops with
  | [] => 0
  | op :: rest =>
    (match op with
     | .acquire => if (check_capacity maxC c).1.hasCapacity then 1 else 0
     | .release => 0) + countGranted maxC rest (applyCapOp maxC c op)

/-! ### Single next-trigger (`trigger_next` lambda) -/

/-- The reply of the `trigger_next` handler. -/
structure TriggerNextResult where
  nextExecutionTriggered : Bool
  reason : Option String
  error : Option String
  combinationId : Option String
  executionArn : Option String
deriving DecidableEq, Repr

/-- The status update of the `trigger_next` handler:
`SET status=processing, execution_arn=:arn, started_at=:t`, with NO
condition expression (unlike the bulk trigger in
`register_combinations.trigger_processing`, which guards on
`status = pending`). -/
def trigger_next_update (r : CombRecord) (arn : String) (now : Int) :
    CombRecord :=
  { r with
    status := "processing"
    execution_arn := some arn
    started_at := some (some now) }

/-- The unconditional `update_item` of the `trigger_next` handler applied
to whatever is currently stored at the key; `update_item` upserts when the
key is absent. -/
def trigger_next_write (r : Option CombRecord) (arn : String) (now : Int) :
    CombRecord :=
  match r with
  | some rec => trigger_next_update rec arn now
  | none =>
    { P_EMPRESA := ""
      P_CONTR := ""
      P_VERSION := ""
      status := "processing"
      registered_at := none
      started_at := some (some now)
      reset_at := none
      reset_reason := none
      last_updated := none
      retries := none
      error := none
      execution_arn := some arn }

/-- The `trigger_next` handler after its parameter-store lookup succeeded:
`scanned` is what the `Limit=1` scan for a pending record returned (the
first pending record, or nothing); `table` is the state of the table when
the status update executes, so a record whose status changed between the
scan and the update is expressible.  `arn` is the execution reference
returned by `start_execution`.  Returns the reply and the updated table. -/
def trigger_next_handler (scanned : Option (String × CombRecord))
    (table : Store) (arn : String) (now : Int) :
    TriggerNextResult × Store :=
  match scanned with
  | none =>
    (⟨false, some "No pending combinations found", none, none, none⟩, table)
  | some (cid, _item) =>
    (⟨true, none, none, some cid, some arn⟩,
     fun k =>
       if k = cid then some (trigger_next_write (table cid) arn now)
       else table k)

/-! ### Orchestrator final status (`processor_manager.process_combination`) -/

/-- The terminal Glue job states recognized by the monitoring loop. -/
def glueTerminalStates : List String :=
  ["SUCCEEDED", "FAILED", "TIMEOUT", "STOPPED"]

/-- The final-status determination at the end of
`process_combination`: `completed` exactly when both recorded job statuses
equal `SUCCEEDED`, otherwise `failed` with the composed error message
`f"Macro: {macro_status or UNKNOWN}, MacroStops: {macro_stops_status or
UNKNOWN}"`. -/
def finalize_combination (macro_status macro_stops_status : Option String) :
    String × Option String :=
  if macro_status = some "SUCCEEDED" ∧ macro_stops_status = some "SUCCEEDED"
  then ("completed", none)
  else
    ("failed",
     some ("Macro: " ++ macro_status.getD "UNKNOWN" ++ ", MacroStops: "
       ++ macro_stops_status.getD "UNKNOWN"))

/-- The tail of `process_combination` after the monitoring loop: when the
4-hour ceiling was hit, each job that had not reached a terminal state gets
status `MONITORING_TIMEOUT`; then the final status is determined. -/
def process_combination_final (timedOut : Bool)
    (macro_completed macro_stops_completed : Bool)
    (macro_status macro_stops_status : Option String) :
    String × Option String :=
  let ms := if timedOut ∧ ¬macro_completed
    then some "MONITORING_TIMEOUT" else macro_status
  let mss := if timedOut ∧ ¬macro_stops_completed
    then some "MONITORING_TIMEOUT" else macro_stops_status
  finalize_combination ms mss

/-! ### Failed-combination reset (`reset_failed_combinations`) -/

/-- The conditional update of `reset_failed_combinations` on one record:
`SET status=pending, reset_at=:t, retries=if_not_exists(retries,0)+1`,
guarded by `status = failed`; when the guard fails nothing is written. -/
def reset_failed_update (r : CombRecord) (now : Int) : CombRecord :=
  if r.status = "failed" then
    { r with
      status := "pending"
      reset_at := some now
      retries := some (r.retries.getD 0 + 1) }
  else r

/-! ### Reset operations acting on one record (for retries monotonicity) -/

/-- The value of the `retries` attribute with an absent attribute read as
0, matching `if_not_exists(retries, 0)` in every reset expression. -/
def retriesVal (r : CombRecord) : Nat := r.retries.getD 0

/-- One visit of a reset-performing operation to a single record:
the registrar applied to an existing record (which resets `failed` and
unrecognized statuses), the sweeper pass (which resets inconsistent
in-progress records), and the explicit failed reset.  Each op carries the
wall-clock time of the visit. -/
inductive ResetOp
  | registrarVisit (now : Int)
  | sweeperVisit (now : Int)
  | resetFailedVisit (now : Int)
deriving DecidableEq, Repr

/-- Apply one reset-performing operation to a record.  A sweeper visit
that deletes the record ends its history; since a deleted record carries no
`retries` counter, deletion is modelled as leaving the final value in
place, which only matters for stating monotonicity over sequences. -/
def applyResetOp (r : CombRecord) : ResetOp → CombRecord
  | .registrarVisit now => ((register_existing r now).2).getD r
  | .sweeperVisit now => (clean_step r now).getD r
  | .resetFailedVisit now => reset_failed_update r now

/-- A record after a sequence of reset-performing operations. -/
def applyResetOps (r : CombRecord) (ops : List ResetOp) : CombRecord :=
  ops.foldl applyResetOp r

/-! ## Theorems -/

/-- C1: per-candidate registration returns exactly one of
registered/reset/skipped/error, following the reference definition: an
absent record is conditionally created as pending with retries 0 and
registered_at now (registered); a failed conditional create re-reads and
classifies skipped when the record now exists, error otherwise; an existing
failed record is reset to pending with error cleared, retries incremented
and reset_at now; an existing record with status outside
pending/processing/completed is force-reset the same way without touching
error; an existing pending, processing or completed record is left
untouched (skipped); in particular a preprocessing record is force-reset. -/
theorem c1_registrar_outcomes :
    (∀ s1 s2 s3 c now, (register_combination_atomic s1 s2 s3 c now).1 ∈
      ([.registered, .reset, .skipped, .error] : List RegOutcome)) ∧
    (∀ s3 c now, register_combination_atomic none none s3 c now
      = (.registered, some (newPendingRecord c now))) ∧
    (∀ x y c now, register_combination_atomic none (some x) (some y) c now
      = (.skipped, none)) ∧
    (∀ x c now, register_combination_atomic none (some x) none c now
      = (.error, none)) ∧
    (∀ item s2 s3 c now, item.status = "failed" →
      register_combination_atomic (some item) s2 s3 c now
        = (.reset, some (resetFromFailed item now))) ∧
    (∀ item s2 s3 c now, item.status ≠ "failed" →
      item.status ∉ (["pending", "processing", "completed"] : List String) →
      register_combination_atomic (some item) s2 s3 c now
        = (.reset, some (forceReset item now))) ∧
    (∀ item s2 s3 c now,
      item.status ∈ (["pending", "processing", "completed"] : List String) →
      register_combination_atomic (some item) s2 s3 c now
        = (.skipped, none)) ∧
    (∀ item s2 s3 c now, item.status = "preprocessing" →
      register_combination_atomic (some item) s2 s3 c now
        = (.reset, some (forceReset item now))) := by
  refine ⟨?_, ?_, ?_, ?_, ?_, ?_, ?_, ?_⟩
  · intro s1 s2 s3 c now
    cases (register_combination_atomic s1 s2 s3 c now).1 <;> simp
  · intro s3 c now
    rfl
  · intro x y c now
    rfl
  · intro x c now
    rfl
  · intro item s2 s3 c now h
    simp [register_combination_atomic, register_existing, h]
  · intro item s2 s3 c now h1 h2
    simp [register_combination_atomic, register_existing, h1, h2]
  · intro item s2 s3 c now h
    have h' : item.status = "pending" ∨ item.status = "processing"
        ∨ item.status = "completed" := by simpa using h
    have h1 : item.status ≠ "failed" := by
      rcases h' with h' | h' | h' <;> simp [h']
    simp [register_combination_atomic, register_existing, h, h1]
  · intro item s2 s3 c now h
    simp [register_combination_atomic, register_existing, h]

/-- Witness for C1 at a concrete preprocessing record: the hypothesis of
the force-reset conjunct is discharged at an explicit input. -/
theorem c1_registrar_outcomes_witness :
    (CombRecord.status
        { P_EMPRESA := "60", P_CONTR := "12", P_VERSION := "v1"
          status := "preprocessing", registered_at := some 0
          started_at := some (some 1), reset_at := none, reset_reason := none
          last_updated := none, retries := some 2, error := none
          execution_arn := none } = "preprocessing") ∧
    register_combination_atomic
        (some { P_EMPRESA := "60", P_CONTR := "12", P_VERSION := "v1"
                status := "preprocessing", registered_at := some 0
                started_at := some (some 1), reset_at := none
                reset_reason := none, last_updated := none, retries := some 2
                error := none, execution_arn := none }) none none
        ⟨"60", "12", "v1"⟩ 7
      = (.reset, some (forceReset
          { P_EMPRESA := "60", P_CONTR := "12", P_VERSION := "v1"
            status := "preprocessing", registered_at := some 0
            started_at := some (some 1), reset_at := none, reset_reason := none
            last_updated := none, retries := some 2, error := none
            execution_arn := none } 7)) :=
  ⟨rfl, c1_registrar_outcomes.2.2.2.2.2.2.2 _ none none ⟨"60", "12", "v1"⟩ 7 rfl⟩

/-- C5: a processing record with all required fields present whose
started_at parses to one hour before now is left untouched by the sweep
(threshold 8 hours), while the same record with started_at nine hours
before now is reset to pending with retries incremented by exactly one and
reset_at and reset_reason set. -/
theorem c5_sweeper_staleness (r : CombRecord) (now : Int)
    (hst : r.status = "processing") (he : r.P_EMPRESA ≠ "")
    (hc : r.P_CONTR ≠ "") (hv : r.P_VERSION ≠ "") :
    (r.started_at = some (some (now - 3600)) → clean_step r now = some r) ∧
    (r.started_at = some (some (now - 9 * 3600)) →
      clean_step r now
        = some (sweepResetRecord r ("Estado " ++ r.status ++ " por más de 8h")
            now) ∧
      ∀ s, clean_step r now = some s →
        s.status = "pending" ∧ s.retries = some (retriesVal r + 1) ∧
        s.reset_at = some now ∧ s.reset_reason.isSome = true) := by
  have hmiss : sweeperMissingField r = none := by
    simp [sweeperMissingField, he, hc, hv, hst]
  constructor
  · intro hsa
    have hnotlt : ¬(now - 3600 < now - cleanupThresholdSeconds) := by
      simp only [cleanupThresholdSeconds]; omega
    simp [clean_step, clean_classify, hmiss, hst, hsa, hnotlt]
  · intro hsa
    have hcl : clean_classify r now
        = some ("Estado " ++ r.status ++ " por más de 8h") := by
      simp [clean_classify, hmiss, hst, hsa, cleanupThresholdSeconds]
    have hstep : clean_step r now
        = some (sweepResetRecord r ("Estado " ++ r.status ++ " por más de 8h")
            now) := by
      simp [clean_step, hcl, sweep_remediate, hst]
    refine ⟨hstep, ?_⟩
    intro s hs
    rw [hstep] at hs
    cases hs
    simp [sweepResetRecord, retriesVal]

/-- Witness for C5 at a concrete processing record, with both started_at
instantiations. -/
theorem c5_sweeper_staleness_witness :
    (CombRecord.status
        { P_EMPRESA := "60", P_CONTR := "12", P_VERSION := "v1"
          status := "processing", registered_at := some 0
          started_at := some (some (100000 - 9 * 3600)), reset_at := none
          reset_reason := none, last_updated := none, retries := some 1
          error := none, execution_arn := none } = "processing") ∧
    (clean_step
        { P_EMPRESA := "60", P_CONTR := "12", P_VERSION := "v1"
          status := "processing", registered_at := some 0
          started_at := some (some (100000 - 9 * 3600)), reset_at := none
          reset_reason := none, last_updated := none, retries := some 1
          error := none, execution_arn := none } 100000
      = some (sweepResetRecord
          { P_EMPRESA := "60", P_CONTR := "12", P_VERSION := "v1"
            status := "processing", registered_at := some 0
            started_at := some (some (100000 - 9 * 3600)), reset_at := none
            reset_reason := none, last_updated := none, retries := some 1
            error := none, execution_arn := none }
          "Estado processing por más de 8h" 100000)) :=
  ⟨rfl,
    ((c5_sweeper_staleness
      { P_EMPRESA := "60", P_CONTR := "12", P_VERSION := "v1"
        status := "processing", registered_at := some 0
        started_at := some (some (100000 - 9 * 3600)), reset_at := none
        reset_reason := none, last_updated := none, retries := some 1
        error := none, execution_arn := none } 100000
      rfl (by decide) (by decide) (by decide)).2 rfl).1⟩

/-- C6: every record the sweep classifies as inconsistent is reset in place
when its status is preprocessing or processing and deleted outright for
every other status; in particular a record whose status is the unrecognized
value bogus is deleted, not reset. -/
theorem c6_sweeper_remediation :
    (∀ r now reason, clean_classify r now = some reason →
      r.status ∈ (["preprocessing", "processing"] : List String) →
      clean_step r now = some (sweepResetRecord r reason now)) ∧
    (∀ r now reason, clean_classify r now = some reason →
      r.status ∉ (["preprocessing", "processing"] : List String) →
      clean_step r now = none) ∧
    (clean_classify
        { P_EMPRESA := "60", P_CONTR := "12", P_VERSION := "v1"
          status := "bogus", registered_at := some 0, started_at := none
          reset_at := none, reset_reason := none, last_updated := none
          retries := some 0, error := none, execution_arn := none } 1000
      = some "Estado desconocido: bogus") ∧
    (clean_step
        { P_EMPRESA := "60", P_CONTR := "12", P_VERSION := "v1"
          status := "bogus", registered_at := some 0, started_at := none
          reset_at := none, reset_reason := none, last_updated := none
          retries := some 0, error := none, execution_arn := none } 1000
      = none) := by
  refine ⟨?_, ?_, by decide, by decide⟩
  · intro r now reason hcl hmem
    simp [clean_step, hcl, sweep_remediate, hmem]
  · intro r now reason hcl hmem
    simp [clean_step, hcl, sweep_remediate, hmem]

/-- Witness for C6 at a concrete stuck preprocessing record (reset branch)
and a concrete empty-status record (delete branch). -/
theorem c6_sweeper_remediation_witness :
    (clean_classify
        { P_EMPRESA := "60", P_CONTR := "12", P_VERSION := "v1"
          status := "preprocessing", registered_at := some 0
          started_at := none, reset_at := none, reset_reason := none
          last_updated := none, retries := none, error := none
          execution_arn := none } 1000
      = some "Estado preprocessing sin timestamp") ∧
    (clean_step
        { P_EMPRESA := "60", P_CONTR := "12", P_VERSION := "v1"
          status := "preprocessing", registered_at := some 0
          started_at := none, reset_at := none, reset_reason := none
          last_updated := none, retries := none, error := none
          execution_arn := none } 1000
      = some (sweepResetRecord
          { P_EMPRESA := "60", P_CONTR := "12", P_VERSION := "v1"
            status := "preprocessing", registered_at := some 0
            started_at := none, reset_at := none, reset_reason := none
            last_updated := none, retries := none, error := none
            execution_arn := none }
          "Estado preprocessing sin timestamp" 1000)) :=
  ⟨by decide,
    c6_sweeper_remediation.1
      { P_EMPRESA := "60", P_CONTR := "12", P_VERSION := "v1"
        status := "preprocessing", registered_at := some 0
        started_at := none, reset_at := none, reset_reason := none
        last_updated := none, retries := none, error := none
        execution_arn := none } 1000
      "Estado preprocessing sin timestamp" (by decide) (by decide)⟩

/-- C7: the orchestrator marks a combination completed exactly when both
parallel transform jobs recorded terminal state SUCCEEDED; any other pair
of recorded terminal outcomes, including MONITORING_TIMEOUT filled in at
the 4-hour ceiling, yields failed with a stored error message containing
both recorded sub-job states. -/
theorem c7_final_status :
    (∀ ms mss : String,
      (finalize_combination (some ms) (some mss)).1 = "completed"
        ↔ (ms = "SUCCEEDED" ∧ mss = "SUCCEEDED")) ∧
    (∀ ms mss : String, ¬(ms = "SUCCEEDED" ∧ mss = "SUCCEEDED") →
      (finalize_combination (some ms) (some mss)).1 = "failed" ∧
      ∃ e, (finalize_combination (some ms) (some mss)).2 = some e ∧
        (∃ p q, e = p ++ ms ++ q) ∧ (∃ p q, e = p ++ mss ++ q)) ∧
    (∀ mc msc ms mss, process_combination_final false mc msc ms mss
      = finalize_combination ms mss) ∧
    (process_combination_final true false false none none
      = ("failed",
         some "Macro: MONITORING_TIMEOUT, MacroStops: MONITORING_TIMEOUT")) ∧
    (process_combination_final true true false (some "FAILED") none
      = ("failed", some "Macro: FAILED, MacroStops: MONITORING_TIMEOUT")) ∧
    (finalize_combination (some "FAILED") (some "SUCCEEDED")
      = ("failed", some "Macro: FAILED, MacroStops: SUCCEEDED")) := by
  refine ⟨?_, ?_, ?_, by decide, by decide, by decide⟩
  · intro ms mss
    simp only [finalize_combination, Option.some.injEq]
    by_cases h : ms = "SUCCEEDED" ∧ mss = "SUCCEEDED"
    · simp [h]
    · simp [h]
  · intro ms mss h
    have h' : ¬(some ms = some "SUCCEEDED" ∧ some mss = some "SUCCEEDED") := by
      simpa using h
    have hfc : finalize_combination (some ms) (some mss)
        = ("failed", some ("Macro: " ++ ms ++ ", MacroStops: " ++ mss)) := by
      unfold finalize_combination
      rw [if_neg h']
      rfl
    rw [hfc]
    exact ⟨rfl, "Macro: " ++ ms ++ ", MacroStops: " ++ mss, rfl,
      ⟨"Macro: ", ", MacroStops: " ++ mss, by simp [String.append_assoc]⟩,
      ⟨"Macro: " ++ ms ++ ", MacroStops: ", "", by simp⟩⟩
  · intro mc msc ms mss
    simp [process_combination_final]

/-- Witness for C7 at the failure scenario of the spec: macro FAILED,
macro_stops SUCCEEDED. -/
theorem c7_final_status_witness :
    ¬("FAILED" = "SUCCEEDED" ∧ "SUCCEEDED" = "SUCCEEDED") ∧
    ((finalize_combination (some "FAILED") (some "SUCCEEDED")).1 = "failed" ∧
      ∃ e, (finalize_combination (some "FAILED") (some "SUCCEEDED")).2 = some e ∧
        (∃ p q, e = p ++ "FAILED" ++ q) ∧
        (∃ p q, e = p ++ "SUCCEEDED" ++ q)) :=
  ⟨by decide, c7_final_status.2.1 "FAILED" "SUCCEEDED" (by decide)⟩

/-- C8: releasing capacity when active_executions is 0 leaves the counter
at 0; the guarded decrement fails its condition, which is reported as
capacityReleased = false with the error recorded instead of raising. -/
theorem c8_release_floor (ev : ReleaseEvent) (table : Store) (now : Int) :
    (release_handler ev table (some 0) now).counter = some 0 ∧
    (release_handler ev table (some 0) now).output.capacityReleased = false ∧
    (release_handler ev table (some 0) now).output.error.isSome = true := by
  simp [release_handler, release_counter_ok, release_capacity_counter]

/-- C10: a release event without combinationId writes no combination
record (the state table is unchanged) while the guarded counter decrement
is still applied; with a combinationId only that record changes, and the
write touches only its status, last_updated and, when the event carries an
error, error attributes. -/
theorem c10_release_frame :
    (∀ ev table counter now, ev.combinationId = none →
      (release_handler ev table counter now).stateTable = table) ∧
    (∀ ev table counter now, (release_handler ev table counter now).counter
      = release_capacity_counter counter) ∧
    (∀ ev table counter now cid, ev.combinationId = some cid →
      (∀ k, k ≠ cid →
        (release_handler ev table counter now).stateTable k = table k) ∧
      (release_handler ev table counter now).stateTable cid
        = some (releaseStatusUpdate (table cid) (ev.status.getD "completed")
            ev.error now) ∧
      (∀ r s, table cid = some r →
        (release_handler ev table counter now).stateTable cid = some s →
        s.P_EMPRESA = r.P_EMPRESA ∧ s.P_CONTR = r.P_CONTR ∧
        s.P_VERSION = r.P_VERSION ∧ s.registered_at = r.registered_at ∧
        s.started_at = r.started_at ∧ s.reset_at = r.reset_at ∧
        s.reset_reason = r.reset_reason ∧ s.retries = r.retries ∧
        s.execution_arn = r.execution_arn ∧
        s.status = ev.status.getD "completed" ∧ s.last_updated = some now ∧
        (ev.error = none → s.error = r.error))) := by
  refine ⟨?_, ?_, ?_⟩
  · intro ev table counter now h
    by_cases hok : release_counter_ok counter = true <;>
      simp [release_handler, h, hok]
  · intro ev table counter now
    by_cases hok : release_counter_ok counter = true <;>
      simp [release_handler, hok]
  · intro ev table counter now cid h
    have htab : (release_handler ev table counter now).stateTable
        = fun k => if k = cid
            then some (releaseStatusUpdate (table cid)
              (ev.status.getD "completed") ev.error now)
            else table k := by
      by_cases hok : release_counter_ok counter = true <;>
        simp [release_handler, h, hok]
    refine ⟨?_, ?_, ?_⟩
    · intro k hk
      rw [htab]
      simp [hk]
    · rw [htab]
      simp
    · intro r s hr hs
      rw [htab] at hs
      simp [hr, releaseStatusUpdate] at hs
      subst hs
      cases herr : ev.error <;> simp [herr]

/-- Witness for C10: a concrete event naming a record over a concrete
table, with the frame equalities evaluated. -/
theorem c10_release_frame_witness :
    (ReleaseEvent.combinationId ⟨some "60_12_v1", some "failed", some "boom"⟩
      = some "60_12_v1") ∧
    ((∀ k, k ≠ "60_12_v1" →
      (release_handler ⟨some "60_12_v1", some "failed", some "boom"⟩
        (fun _ => (none : Option CombRecord)) (some 3) 11).stateTable k = (fun _ => (none : Option CombRecord)) k) ∧
     (release_handler ⟨some "60_12_v1", some "failed", some "boom"⟩
        (fun _ => (none : Option CombRecord)) (some 3) 11).stateTable "60_12_v1"
       = some (releaseStatusUpdate ((fun _ => (none : Option CombRecord)) "60_12_v1")
           ((some "failed").getD "completed") (some "boom") 11) ∧
     (∀ r s, (fun _ => (none : Option CombRecord)) "60_12_v1" = some r →
        (release_handler ⟨some "60_12_v1", some "failed", some "boom"⟩
          (fun _ => (none : Option CombRecord)) (some 3) 11).stateTable "60_12_v1" = some s →
        s.P_EMPRESA = r.P_EMPRESA ∧ s.P_CONTR = r.P_CONTR ∧
        s.P_VERSION = r.P_VERSION ∧ s.registered_at = r.registered_at ∧
        s.started_at = r.started_at ∧ s.reset_at = r.reset_at ∧
        s.reset_reason = r.reset_reason ∧ s.retries = r.retries ∧
        s.execution_arn = r.execution_arn ∧
        s.status = (some "failed").getD "completed" ∧
        s.last_updated = some 11 ∧
        (some "boom" = none → s.error = r.error))) :=
  ⟨rfl, c10_release_frame.2.2 ⟨some "60_12_v1", some "failed", some "boom"⟩
    (fun _ => (none : Option CombRecord)) (some 3) 11 "60_12_v1" rfl⟩

/-- C3 counterexample: the status update of the trigger_next lambda has no
condition expression, so a record whose status concurrently changed from
pending to completed between the scan and the update IS overwritten back to
processing.  The scan returned a pending snapshot of "60_12_v1", but by
update time the stored record is completed with retries 4; the handler
still rewrites it to processing, refuting the claim that such a record is
never overwritten. -/
theorem c3_trigger_next_counterexample :
    ((fun k => if k = "60_12_v1" then
        some { P_EMPRESA := "60", P_CONTR := "12", P_VERSION := "v1"
               status := "completed", registered_at := some 0
               started_at := some (some 5), reset_at := none
               reset_reason := none, last_updated := none, retries := some 4
               error := none, execution_arn := none }
      else (none : Option CombRecord)) "60_12_v1").map CombRecord.status
      = some "completed" ∧
    ((trigger_next_handler
        (some ("60_12_v1",
          { P_EMPRESA := "60", P_CONTR := "12", P_VERSION := "v1"
            status := "pending", registered_at := some 0, started_at := none
            reset_at := none, reset_reason := none, last_updated := none
            retries := some 4, error := none, execution_arn := none }))
        (fun k => if k = "60_12_v1" then
          some { P_EMPRESA := "60", P_CONTR := "12", P_VERSION := "v1"
                 status := "completed", registered_at := some 0
                 started_at := some (some 5), reset_at := none
                 reset_reason := none, last_updated := none, retries := some 4
                 error := none, execution_arn := none }
        else (none : Option CombRecord)) "arn-1" 9).2 "60_12_v1").map
        CombRecord.status
      = some "processing" := by
  constructor
  · decide
  · decide

/-- C3 (amended): the single next-trigger scans for one pending record; if
none is found it reports no pending combinations without error; if one is
found it starts the external workflow and then updates the record at that
key to processing, storing execution_ref and started_at, UNCONDITIONALLY:
unlike the bulk trigger there is no condition that the status is still
pending, so a record whose status concurrently changed away from pending is
overwritten rather than left alone. -/
theorem c3_trigger_next_amended :
    (∀ table arn now, trigger_next_handler none table arn now
      = (⟨false, some "No pending combinations found", none, none, none⟩,
         table)) ∧
    (∀ cid item table arn now,
      (trigger_next_handler (some (cid, item)) table arn now).1
        = ⟨true, none, none, some cid, some arn⟩ ∧
      (∀ k, k ≠ cid →
        (trigger_next_handler (some (cid, item)) table arn now).2 k
          = table k) ∧
      (∀ r, table cid = some r →
        (trigger_next_handler (some (cid, item)) table arn now).2 cid
          = some { r with
                   status := "processing"
                   execution_arn := some arn
                   started_at := some (some now) })) := by
  refine ⟨fun table arn now => rfl, ?_⟩
  intro cid item table arn now
  refine ⟨rfl, ?_, ?_⟩
  · intro k hk
    simp [trigger_next_handler, hk]
  · intro r hr
    simp [trigger_next_handler, trigger_next_write, trigger_next_update, hr]

/-- Witness for C3 (amended) at a concrete pending record over a concrete
single-record table. -/
theorem c3_trigger_next_amended_witness :
    ((fun k => if k = "60_12_v1" then
        some { P_EMPRESA := "60", P_CONTR := "12", P_VERSION := "v1"
               status := "pending", registered_at := some 0, started_at := none
               reset_at := none, reset_reason := none, last_updated := none
               retries := some 0, error := none, execution_arn := none }
      else (none : Option CombRecord)) "60_12_v1"
      = some { P_EMPRESA := "60", P_CONTR := "12", P_VERSION := "v1"
               status := "pending", registered_at := some 0, started_at := none
               reset_at := none, reset_reason := none, last_updated := none
               retries := some 0, error := none, execution_arn := none }) ∧
    (trigger_next_handler
        (some ("60_12_v1",
          { P_EMPRESA := "60", P_CONTR := "12", P_VERSION := "v1"
            status := "pending", registered_at := some 0, started_at := none
            reset_at := none, reset_reason := none, last_updated := none
            retries := some 0, error := none, execution_arn := none }))
        (fun k => if k = "60_12_v1" then
          some { P_EMPRESA := "60", P_CONTR := "12", P_VERSION := "v1"
                 status := "pending", registered_at := some 0
                 started_at := none, reset_at := none, reset_reason := none
                 last_updated := none, retries := some 0, error := none
                 execution_arn := none }
        else (none : Option CombRecord)) "arn-1" 9).2 "60_12_v1"
      = some { P_EMPRESA := "60", P_CONTR := "12", P_VERSION := "v1"
               status := "processing", registered_at := some 0
               started_at := some (some 9), reset_at := none
               reset_reason := none, last_updated := none, retries := some 0
               error := none, execution_arn := some "arn-1" } := by
  refine ⟨rfl, ?_⟩
  have h := (c3_trigger_next_amended.2 "60_12_v1"
      { P_EMPRESA := "60", P_CONTR := "12", P_VERSION := "v1"
        status := "pending", registered_at := some 0, started_at := none
        reset_at := none, reset_reason := none, last_updated := none
        retries := some 0, error := none, execution_arn := none }
      (fun k => if k = "60_12_v1" then
          some { P_EMPRESA := "60", P_CONTR := "12", P_VERSION := "v1"
                 status := "pending", registered_at := some 0
                 started_at := none, reset_at := none, reset_reason := none
                 last_updated := none, retries := some 0, error := none
                 execution_arn := none }
        else (none : Option CombRecord)) "arn-1" 9).2.2 _ rfl
  simpa using h

/-! ### Helper lemmas for the capacity gate -/

theorem applyCapOp_le (maxC : Nat) (c : Option Nat) (op : CapOp)
    (h : c.getD 0 ≤ maxC) : (applyCapOp maxC c op).getD 0 ≤ maxC := by
  cases op with
  | acquire =>
    simp only [applyCapOp, check_capacity]
    by_cases hlt : c.getD 0 < maxC
    · simp only [if_pos hlt, Option.getD_some]
      omega
    · simp [hlt, h]
  | release =>
    cases c with
    | none => simp [applyCapOp, release_capacity_counter]
    | some a =>
      simp only [applyCapOp, release_capacity_counter]
      by_cases ha : 0 < a
      · simp only [if_pos ha, Option.getD_some] at *
        omega
      · simpa [if_neg ha] using h

theorem runCapOps_le (maxC : Nat) (ops : List CapOp) (c : Option Nat)
    (h : c.getD 0 ≤ maxC) : (runCapOps maxC ops c).getD 0 ≤ maxC := by
  induction ops generalizing c with
  | nil => simpa [runCapOps] using h
  | cons op rest ih => exact ih _ (applyCapOp_le maxC c op h)

theorem countGranted_acquires_le (maxC : Nat) (ops : List CapOp)
    (c : Option Nat) (hall : ∀ op ∈ ops, op = CapOp.acquire) :
    countGranted maxC ops c ≤ maxC - c.getD 0 := by
  induction ops generalizing c with
  | nil => simp [countGranted]
  | cons op rest ih =>
    have hop : op = CapOp.acquire := hall op (by simp)
    subst hop
    have hrest : ∀ o ∈ rest, o = CapOp.acquire := fun o ho =>
      hall o (by simp [ho])
    by_cases hlt : c.getD 0 < maxC
    · have h1 : (check_capacity maxC c).1.hasCapacity = true := by
        simp [check_capacity, hlt]
      have h2 : applyCapOp maxC c CapOp.acquire = some (c.getD 0 + 1) := by
        simp [applyCapOp, check_capacity, hlt]
      have h3 := ih (some (c.getD 0 + 1)) hrest
      simp only [Option.getD_some] at h3
      simp [countGranted, h1, h2]
      omega
    · have h1 : (check_capacity maxC c).1.hasCapacity = false := by
        simp [check_capacity, hlt]
      have h2 : applyCapOp maxC c CapOp.acquire = some (c.getD 0) := by
        simp [applyCapOp, check_capacity, hlt]
      have h3 := ih (some (c.getD 0)) hrest
      simp only [Option.getD_some] at h3
      simp [countGranted, h1, h2]
      omega

theorem runCapOps_replicate_acquire (maxC k : Nat) :
    ∀ m, m ≤ maxC →
    runCapOps maxC (List.replicate k CapOp.acquire) (some m)
      = some (min (m + k) maxC) := by
  induction k with
  | zero =>
    intro m hm
    simp only [List.replicate, runCapOps]
    congr 1
    omega
  | succ k ih =>
    intro m hm
    rw [List.replicate_succ]
    by_cases hlt : m < maxC
    · have h2 : applyCapOp maxC (some m) CapOp.acquire = some (m + 1) := by
        simp [applyCapOp, check_capacity, hlt]
      simp only [runCapOps, h2]
      rw [ih (m + 1) hlt]
      congr 1
      omega
    · have h2 : applyCapOp maxC (some m) CapOp.acquire = some m := by
        simp [applyCapOp, check_capacity, hlt]
      simp only [runCapOps, h2]
      rw [ih m hm]
      congr 1
      omega

theorem runCapOps_replicate_acquire_none (maxC k : Nat) :
    runCapOps maxC (List.replicate k CapOp.acquire) none
      = if k = 0 then none else some (min k maxC) := by
  cases k with
  | zero => rfl
  | succ k =>
    rw [List.replicate_succ]
    by_cases h0 : 0 < maxC
    · have h1 : applyCapOp maxC none CapOp.acquire = some 1 := by
        simp [applyCapOp, check_capacity, h0]
      simp only [runCapOps, h1]
      rw [runCapOps_replicate_acquire maxC k 1 h0]
      simp only [Nat.succ_ne_zero, if_neg, ite_false]
      congr 1
      omega
    · have hm0 : maxC = 0 := by omega
      subst hm0
      have h1 : applyCapOp 0 none CapOp.acquire = some 0 := by
        simp [applyCapOp, check_capacity]
      simp only [runCapOps, h1]
      rw [runCapOps_replicate_acquire 0 k 0 (Nat.le_refl 0)]
      simp

theorem countGranted_replicate_acquire (maxC k : Nat) :
    ∀ m, m ≤ maxC →
    countGranted maxC (List.replicate k CapOp.acquire) (some m)
      = min (m + k) maxC - m := by
  induction k with
  | zero =>
    intro m hm
    simp only [List.replicate, countGranted]
    omega
  | succ k ih =>
    intro m hm
    rw [List.replicate_succ]
    by_cases hlt : m < maxC
    · have h1 : (check_capacity maxC (some m)).1.hasCapacity = true := by
        simp [check_capacity, hlt]
      have h2 : applyCapOp maxC (some m) CapOp.acquire = some (m + 1) := by
        simp [applyCapOp, check_capacity, hlt]
      simp [countGranted, h1, h2]
      rw [ih (m + 1) hlt]
      omega
    · have h1 : (check_capacity maxC (some m)).1.hasCapacity = false := by
        simp [check_capacity, hlt]
      have h2 : applyCapOp maxC (some m) CapOp.acquire = some m := by
        simp [applyCapOp, check_capacity, hlt]
      simp [countGranted, h1, h2]
      rw [ih m hm]
      omega

theorem countGranted_replicate_acquire_none (maxC k : Nat) :
    countGranted maxC (List.replicate k CapOp.acquire) none = min k maxC := by
  cases k with
  | zero => simp [countGranted]
  | succ k =>
    rw [List.replicate_succ]
    by_cases h0 : 0 < maxC
    · have h1 : (check_capacity maxC none).1.hasCapacity = true := by
        simp [check_capacity, h0]
      have h2 : applyCapOp maxC none CapOp.acquire = some 1 := by
        simp [applyCapOp, check_capacity, h0]
      simp [countGranted, h1, h2]
      rw [countGranted_replicate_acquire maxC k 1 h0]
      omega
    · have hm0 : maxC = 0 := by omega
      subst hm0
      have h1 : (check_capacity 0 none).1.hasCapacity = false := by
        simp [check_capacity]
      have h2 : applyCapOp 0 none CapOp.acquire = some 0 := by
        simp [applyCapOp, check_capacity]
      simp [countGranted, h1, h2]
      rw [countGranted_replicate_acquire 0 k 0 (Nat.le_refl 0)]
      simp

/-- C2: with max_executions = N, starting from an absent or zero counter,
at most N acquires are granted before any release (exactly min k N of k
consecutive acquires), the acquire following N consecutive grants reports
hasCapacity false with the current count N, and active_executions never
exceeds N over any sequence of acquire and release operations. -/
theorem c2_capacity_bound (N : Nat) :
    (∀ ops c0, (c0 = none ∨ c0 = some 0) →
      (∀ op ∈ ops, op = CapOp.acquire) → countGranted N ops c0 ≤ N) ∧
    (∀ k, countGranted N (List.replicate k CapOp.acquire) none = min k N) ∧
    (∀ k, N ≤ k →
      (check_capacity N
        (runCapOps N (List.replicate k CapOp.acquire) none)).1.hasCapacity
        = false ∧
      (check_capacity N
        (runCapOps N (List.replicate k CapOp.acquire) none)).1.activeExecutions
        = N) ∧
    (∀ ops c0, (c0 = none ∨ c0 = some 0) →
      (runCapOps N ops c0).getD 0 ≤ N) := by
  refine ⟨?_, countGranted_replicate_acquire_none N, ?_, ?_⟩
  · intro ops c0 hc0 hall
    have h := countGranted_acquires_le N ops c0 hall
    rcases hc0 with h0 | h0 <;> subst h0 <;> simpa using h
  · intro k hk
    rw [runCapOps_replicate_acquire_none]
    by_cases hk0 : k = 0
    · subst hk0
      have hN : N = 0 := by omega
      subst hN
      simp [check_capacity]
    · have hmin : min k N = N := by omega
      simp only [if_neg hk0, hmin]
      constructor
      · simp [check_capacity]
      · simp [check_capacity]
  · intro ops c0 hc0
    have : c0.getD 0 ≤ N := by
      rcases hc0 with h0 | h0 <;> subst h0 <;> simp
    exact runCapOps_le N ops c0 this

/-- Witness for C2 at N = 2 with three consecutive acquires. -/
theorem c2_capacity_bound_witness :
    ((some 0 : Option Nat) = none ∨ (some 0 : Option Nat) = some 0) ∧
    (∀ op ∈ ([CapOp.acquire, CapOp.acquire, CapOp.acquire] : List CapOp),
      op = CapOp.acquire) ∧
    countGranted 2 [CapOp.acquire, CapOp.acquire, CapOp.acquire] (some 0) ≤ 2 ∧
    (2 ≤ 3 ∧
      (check_capacity 2
        (runCapOps 2 (List.replicate 3 CapOp.acquire) none)).1.hasCapacity
        = false ∧
      (check_capacity 2
        (runCapOps 2 (List.replicate 3 CapOp.acquire) none)).1.activeExecutions
        = 2) :=
  ⟨Or.inr rfl, by decide,
    (c2_capacity_bound 2).1 [CapOp.acquire, CapOp.acquire, CapOp.acquire]
      (some 0) (Or.inr rfl) (by decide),
    by decide, ((c2_capacity_bound 2).2.2.1 3 (by decide)).1,
    ((c2_capacity_bound 2).2.2.1 3 (by decide)).2⟩

/-! ### Helper lemmas for retries monotonicity -/

theorem retriesVal_applyResetOp_le (r : CombRecord) (op : ResetOp) :
    retriesVal r ≤ retriesVal (applyResetOp r op) := by
  cases op with
  | registrarVisit now =>
    simp only [applyResetOp, register_existing]
    by_cases hf : r.status = "failed"
    · simp [hf, resetFromFailed, retriesVal]
    · by_cases hm : r.status ∉ (["pending", "processing", "completed"] : List String)
      · simp [hf, hm, forceReset, retriesVal]
      · rw [not_not] at hm
        have hm' : r.status = "pending" ∨ r.status = "processing"
            ∨ r.status = "completed" := by simpa using hm
        rcases hm' with h | h | h <;> simp [hf, h]
  | sweeperVisit now =>
    simp only [applyResetOp, clean_step]
    cases hcl : clean_classify r now with
    | none => simp
    | some reason =>
      simp only [sweep_remediate]
      by_cases hm : r.status ∈ (["preprocessing", "processing"] : List String)
      · simp [hm, sweepResetRecord, retriesVal]
      · simp [hm]
  | resetFailedVisit now =>
    simp only [applyResetOp, reset_failed_update]
    by_cases hf : r.status = "failed"
    · simp [hf, retriesVal]
    · simp [hf]

theorem retriesVal_applyResetOps_le (ops : List ResetOp) (r : CombRecord) :
    retriesVal r ≤ retriesVal (applyResetOps r ops) := by
  induction ops generalizing r with
  | nil => exact Nat.le_refl _
  | cons op rest ih =>
    exact Nat.le_trans (retriesVal_applyResetOp_le r op)
      (ih (applyResetOp r op))

/-- C9: retries never decreases across any sequence of reset-performing
operations (registrar visit, sweeper visit, failed reset), and each
operation that actually resets the record increments retries by exactly
one, reading an absent retries attribute as zero. -/
theorem c9_retries_monotone :
    (∀ ops r, retriesVal r ≤ retriesVal (applyResetOps r ops)) ∧
    (∀ r now, r.status = "failed" →
      retriesVal (applyResetOp r (.registrarVisit now)) = retriesVal r + 1) ∧
    (∀ r now,
      r.status ∉ (["pending", "processing", "completed"] : List String) →
      retriesVal (applyResetOp r (.registrarVisit now)) = retriesVal r + 1) ∧
    (∀ r now reason, clean_classify r now = some reason →
      r.status ∈ (["preprocessing", "processing"] : List String) →
      retriesVal (applyResetOp r (.sweeperVisit now)) = retriesVal r + 1) ∧
    (∀ r now, r.status = "failed" →
      retriesVal (applyResetOp r (.resetFailedVisit now))
        = retriesVal r + 1) := by
  refine ⟨fun ops r => retriesVal_applyResetOps_le ops r, ?_, ?_, ?_, ?_⟩
  · intro r now hf
    simp [applyResetOp, register_existing, hf, resetFromFailed, retriesVal]
  · intro r now hm
    by_cases hf : r.status = "failed"
    · simp [applyResetOp, register_existing, hf, resetFromFailed, retriesVal]
    · simp [applyResetOp, register_existing, hf, hm, forceReset, retriesVal]
  · intro r now reason hcl hm
    simp [applyResetOp, clean_step, hcl, sweep_remediate, hm,
      sweepResetRecord, retriesVal]
  · intro r now hf
    simp [applyResetOp, reset_failed_update, hf, retriesVal]

/-- Witness for C9 at a concrete failed record and a two-step sequence. -/
theorem c9_retries_monotone_witness :
    (CombRecord.status
        { P_EMPRESA := "60", P_CONTR := "12", P_VERSION := "v1"
          status := "failed", registered_at := some 0, started_at := none
          reset_at := none, reset_reason := none, last_updated := none
          retries := none, error := some (some "boom")
          execution_arn := none } = "failed") ∧
    retriesVal (applyResetOp
        { P_EMPRESA := "60", P_CONTR := "12", P_VERSION := "v1"
          status := "failed", registered_at := some 0, started_at := none
          reset_at := none, reset_reason := none, last_updated := none
          retries := none, error := some (some "boom")
          execution_arn := none } (.registrarVisit 3))
      = retriesVal
          { P_EMPRESA := "60", P_CONTR := "12", P_VERSION := "v1"
            status := "failed", registered_at := some 0, started_at := none
            reset_at := none, reset_reason := none, last_updated := none
            retries := none, error := some (some "boom")
            execution_arn := none } + 1 :=
  ⟨rfl, c9_retries_monotone.2.1
    { P_EMPRESA := "60", P_CONTR := "12", P_VERSION := "v1"
      status := "failed", registered_at := some 0, started_at := none
      reset_at := none, reset_reason := none, last_updated := none
      retries := none, error := some (some "boom")
      execution_arn := none } 3 rfl⟩

/-! ### Helper lemmas for registration idempotence -/

/-- The key carries a record whose status is one the registrar leaves
untouched. -/
def goodAt (st : Store) (k : String) : Prop :=
  ∃ r, st k = some r ∧
    r.status ∈ (["pending", "processing", "completed"] : List String)

theorem registerSeq_goodAt_self (st : Store) (c : Combo) (now : Int) :
    goodAt (registerSeq st c now).2 (comboId c) := by
  unfold registerSeq goodAt
  cases h1 : st (comboId c) with
  | none =>
    simp only [h1, register_combination_atomic]
    exact ⟨newPendingRecord c now, by simp, by simp [newPendingRecord]⟩
  | some item =>
    simp only [h1, register_combination_atomic, register_existing]
    by_cases hf : item.status = "failed"
    · simp only [if_pos hf]
      exact ⟨resetFromFailed item now, by simp, by simp [resetFromFailed]⟩
    · by_cases hm : item.status ∉
          (["pending", "processing", "completed"] : List String)
      · simp only [if_neg hf, if_pos hm]
        exact ⟨forceReset item now, by simp, by simp [forceReset]⟩
      · rw [not_not] at hm
        have hm' : (item.status = "pending" ∨ item.status = "processing"
            ∨ item.status = "completed") := by simpa using hm
        have hni : ¬(item.status ∉
            (["pending", "processing", "completed"] : List String)) := by
          simp [hm]
        simp only [if_neg hf, if_neg hni]
        exact ⟨item, by simp [h1], hm⟩

theorem registerSeq_goodAt_other (st : Store) (c : Combo) (now : Int)
    (k : String) (h : goodAt st k) : goodAt (registerSeq st c now).2 k := by
  by_cases hk : k = comboId c
  · subst hk
    exact registerSeq_goodAt_self st c now
  · obtain ⟨r, hr, hs⟩ := h
    refine ⟨r, ?_, hs⟩
    unfold registerSeq
    cases hw : (register_combination_atomic (st (comboId c)) (st (comboId c))
        (st (comboId c)) c now).2 with
    | none =>
      simp only [hw]
      exact hr
    | some rec =>
      simp only [hw]
      simpa [hk] using hr

theorem registerSeq_skips_good (st : Store) (c : Combo) (now : Int)
    (h : goodAt st (comboId c)) : registerSeq st c now = (.skipped, st) := by
  obtain ⟨r, hr, hs⟩ := h
  have hs' : r.status = "pending" ∨ r.status = "processing"
      ∨ r.status = "completed" := by simpa using hs
  have hf : ¬r.status = "failed" := by
    rcases hs' with h' | h' | h' <;> simp [h']
  have hni : ¬(r.status ∉
      (["pending", "processing", "completed"] : List String)) := by
    simp [hs]
  unfold registerSeq
  rcases hs' with h' | h' | h' <;>
    simp [hr, register_combination_atomic, register_existing, hf, h']

theorem process_one_goodAt (st : Store) (c : Combo) (now : Int) (k : String)
    (h : goodAt st k) : goodAt (process_one st c now).2 k := by
  unfold process_one
  by_cases hv : validate_combination c = true
  · simpa [hv] using registerSeq_goodAt_other st c now k h
  · simpa [hv] using h

theorem register_pass_goodAt_mono (cs : List Combo) (st : Store) (now : Int)
    (k : String) (h : goodAt st k) :
    goodAt (register_pass st cs now).2 k := by
  induction cs generalizing st with
  | nil => simpa [register_pass] using h
  | cons c rest ih =>
    simp only [register_pass]
    exact ih (process_one st c now).2 (process_one_goodAt st c now k h)

theorem register_pass_goodAt (cs : List Combo) (st : Store) (now : Int)
    (hval : ∀ c ∈ cs, validate_combination c = true) :
    ∀ c ∈ cs, goodAt (register_pass st cs now).2 (comboId c) := by
  induction cs generalizing st with
  | nil => intro c hc; cases hc
  | cons c0 rest ih =>
    intro c hc
    simp only [register_pass]
    rcases List.mem_cons.mp hc with hc0 | hcr
    · subst hc0
      apply register_pass_goodAt_mono
      have hv : validate_combination c = true := hval c (by simp)
      unfold process_one
      simpa [hv] using registerSeq_goodAt_self st c now
    · exact ih (process_one st c0 now).2
        (fun d hd => hval d (by simp [hd])) c hcr

theorem register_pass_skips_all (cs : List Combo) (st : Store) (now : Int)
    (hval : ∀ c ∈ cs, validate_combination c = true)
    (hgood : ∀ c ∈ cs, goodAt st (comboId c)) :
    register_pass st cs now
      = (List.replicate cs.length RegOutcome.skipped, st) := by
  induction cs generalizing st with
  | nil => rfl
  | cons c rest ih =>
    have hv : validate_combination c = true := hval c (by simp)
    have hskip : registerSeq st c now = (.skipped, st) :=
      registerSeq_skips_good st c now (hgood c (by simp))
    have hone : process_one st c now = (.skipped, st) := by
      unfold process_one
      simp [hv, hskip]
    simp only [register_pass, hone]
    rw [ih st (fun d hd => hval d (by simp [hd]))
      (fun d hd => hgood d (by simp [hd]))]
    simp [List.replicate_succ]

/-- C4: for a batch of valid candidates, a second registration pass over
the same batch with no intervening state changes classifies every item
skipped, yields registered = 0, and leaves the store exactly as the first
pass left it. -/
theorem c4_registration_idempotent (cs : List Combo) (st : Store)
    (now now2 : Int) (hval : ∀ c ∈ cs, validate_combination c = true) :
    (register_pass (register_pass st cs now).2 cs now2).1
      = List.replicate cs.length RegOutcome.skipped ∧
    (∀ o ∈ (register_pass (register_pass st cs now).2 cs now2).1,
      o = RegOutcome.skipped) ∧
    countOutcome (register_pass (register_pass st cs now).2 cs now2).1
      RegOutcome.registered = 0 ∧
    (register_pass (register_pass st cs now).2 cs now2).2
      = (register_pass st cs now).2 := by
  have hgood : ∀ c ∈ cs, goodAt (register_pass st cs now).2 (comboId c) :=
    register_pass_goodAt cs st now hval
  have h2 := register_pass_skips_all cs (register_pass st cs now).2 now2
    hval hgood
  rw [h2]
  refine ⟨rfl, ?_, ?_, rfl⟩
  · intro o ho
    exact (List.eq_of_mem_replicate ho)
  · simp [countOutcome]

/-- Witness for C4 at a one-candidate batch over the empty store. -/
theorem c4_registration_idempotent_witness :
    (∀ c ∈ ([⟨"60", "12", "v1"⟩] : List Combo),
      validate_combination c = true) ∧
    ((register_pass
        (register_pass (fun _ => (none : Option CombRecord))
          [⟨"60", "12", "v1"⟩] 0).2 [⟨"60", "12", "v1"⟩] 1).1
      = List.replicate ([⟨"60", "12", "v1"⟩] : List Combo).length
          RegOutcome.skipped ∧
    (∀ o ∈ (register_pass
        (register_pass (fun _ => (none : Option CombRecord))
          [⟨"60", "12", "v1"⟩] 0).2 [⟨"60", "12", "v1"⟩] 1).1,
      o = RegOutcome.skipped) ∧
    countOutcome (register_pass
        (register_pass (fun _ => (none : Option CombRecord))
          [⟨"60", "12", "v1"⟩] 0).2 [⟨"60", "12", "v1"⟩] 1).1
      RegOutcome.registered = 0 ∧
    (register_pass
        (register_pass (fun _ => (none : Option CombRecord))
          [⟨"60", "12", "v1"⟩] 0).2 [⟨"60", "12", "v1"⟩] 1).2
      = (register_pass (fun _ => (none : Option CombRecord))
          [⟨"60", "12", "v1"⟩] 0).2) :=
  ⟨by decide,
    c4_registration_idempotent [⟨"60", "12", "v1"⟩]
      (fun _ => (none : Option CombRecord)) 0 1 (by decide)⟩

end DataFlow
